import Mathlib

/-!
Shallow embedding of the request-classification and validation pipeline of the
ICT backtesting repository (coordinator_agent.py, backtesting_agent.py,
database.py), together with theorems settling the frozen claims about it.

Numeric fields that the source stores as Python floats are modelled as
rationals, so every division is exact; Python dicts are modelled as
insertion-ordered association lists.
-/

namespace ICT

/-- Parameter values carried in the parameter map handed to the execution
gateway: the source stores strings (symbol, timeframe, session) and integers
(min_sample_size). -/
inductive PVal where
  | str (s : String)
  | int (n : Nat)
  deriving DecidableEq, Repr

/-- The Python builtin min on two floats, modelled on rationals: the first
argument is returned on ties. -/
def py_min (a b : ℚ) : ℚ :=
  if a ≤ b then a else b

/-- Python str.lower, character by character (every string the pipeline
lowers is ASCII). -/
def py_lower (s : String) : String :=
  ⟨s.data.map Char.toLower⟩

/-- Python str.upper, character by character. -/
def py_upper (s : String) : String :=
  ⟨s.data.map Char.toUpper⟩

/-- Association-list read with a default, mirroring Python dict.get(k, d). -/
def assoc_get {α : Type _} (l : List (String × α)) (k : String) (d : α) : α :=
  match l with
  | [] => d
  | (k₂, v) :: rest => if k₂ = k then v else assoc_get rest k d

/-- Key-membership test, mirroring the Python dict membership operator. -/
def assoc_mem {α : Type _} (l : List (String × α)) (k : String) : Bool :=
  l.any (fun kv => kv.1 = k)

/-- Item assignment mirroring Python dict semantics: overwriting an existing
key keeps its original insertion position, a fresh key is appended. -/
def assoc_set {α : Type _} (l : List (String × α)) (k : String) (v : α) : List (String × α) :=
  if assoc_mem l k then l.map (fun kv => if kv.1 = k then (k, v) else kv)
  else l ++ [(k, v)]

/-- One registered SQL function declaration, as stored by FunctionRegistry
(database.py): the name is kept as the association-list key. -/
structure SQLFunctionInfo where
  description : String
  parameters : List (String × String)
  return_type : String
  category : String
  performance_tier : String
  min_sample_size : Nat
  deriving DecidableEq, Repr

/-- State of FunctionRegistry (database.py): the name-keyed functions dict and
the category-to-names index, both in insertion order. -/
structure FunctionRegistry where
  functions : List (String × SQLFunctionInfo)
  categories : List (String × List String)
  deriving DecidableEq, Repr

/-- FunctionRegistry.get_functions_by_category (database.py line 190). -/
def get_functions_by_category (r : FunctionRegistry) (category : String) : List String :=
  assoc_get r.categories category []

/-- The fixed strategy-to-categories lookup table built inside
FunctionRegistry.suggest_functions (database.py lines 202-206). -/
def strategy_mapping : List (String × List String) :=
  [("performance_analysis", ["order_blocks", "session_analysis"]),
   ("correlation_study", ["correlation", "structure_analysis"]),
   ("structure_detection", ["market_structure", "pattern_detection"])]

/-- The context-to-categories table built inside suggest_functions
(database.py lines 208-212); it is constructed there but never consulted. -/
def context_mapping : List (String × List String) :=
  [("scalping", ["intraday", "high_frequency"]),
   ("swing_trading", ["daily", "weekly"]),
   ("position_analysis", ["long_term", "trend_analysis"])]

/-- The names collected category-by-category for a strategy: the loop body of
suggest_functions (database.py lines 216-218). -/
def collected_names (r : FunctionRegistry) (analysis_strategy : String) : List String :=
  (assoc_get strategy_mapping analysis_strategy []).flatMap
    (fun category => get_functions_by_category r category)

/-- FunctionRegistry.suggest_functions (database.py lines 194-224). The
trading_context argument is accepted, as in the source, where it only feeds
the unread context_mapping table. -/
def suggest_functions (r : FunctionRegistry) (analysis_strategy trading_context : String) :
    List String :=
  let suggested := collected_names r analysis_strategy
  let suggested := if suggested = [] then r.functions.map Prod.fst else suggested
  suggested.take 10

/-- FunctionSelection (models.py lines 50-56). -/
structure FunctionSelection where
  recommended_function : String
  parameters : List (String × PVal)
  confidence : ℚ
  alternative_functions : List String
  reasoning : String
  deriving DecidableEq, Repr

/-- The strategy-specific preferred-function table of select_optimal_function
(backtesting_agent.py lines 198-203). -/
def preferred_functions (analysis_strategy : String) : List String :=
  if analysis_strategy = "performance_analysis" then
    ["update_order_block_performance", "analyze_session_performance"]
  else if analysis_strategy = "correlation_study" then
    ["detect_fair_value_gaps", "analyze_session_performance"]
  else
    ["detect_fair_value_gaps", "update_order_block_performance"]

/-- The suggested_functions local of select_optimal_function after its own
empty-list fallback to all registered names (backtesting_agent.py lines
189-195). -/
def suggested_with_fallback (r : FunctionRegistry)
    (analysis_strategy trading_context : String) : List String :=
  if suggest_functions r analysis_strategy trading_context = [] then r.functions.map Prod.fst
  else suggest_functions r analysis_strategy trading_context

/-- The recommended_function local of select_optimal_function
(backtesting_agent.py lines 205-215): the first preferred name present in the
suggestions, else the first suggestion, else the hard-coded default. -/
def recommended_for (r : FunctionRegistry) (analysis_strategy trading_context : String) :
    String :=
  match (preferred_functions analysis_strategy).find?
      (fun f => (suggested_with_fallback r analysis_strategy trading_context).contains f) with
  | some f => f
  | none =>
    match suggested_with_fallback r analysis_strategy trading_context with
    | f :: _ => f
    | [] => "update_order_block_performance"

/-- The try-block of select_optimal_function (backtesting_agent.py lines
187-239). -/
def select_optimal_function_body (r : FunctionRegistry)
    (analysis_strategy trading_context quality_requirements : String) : FunctionSelection :=
  let recommended := recommended_for r analysis_strategy trading_context
  let parameters : List (String × PVal) :=
    [("timeframe", PVal.str (if trading_context = "scalping" then "15m"
        else if trading_context = "swing_trading" then "4h" else "1d")),
     ("min_sample_size", PVal.int (if quality_requirements = "high_confidence" then 20
        else if quality_requirements = "balanced" then 10 else 5))]
  { recommended_function := recommended
    parameters := parameters
    confidence := 85
    alternative_functions := (suggested_with_fallback r analysis_strategy trading_context).take 3
    reasoning := "Selected " ++ recommended ++ " for " ++ analysis_strategy ++ " with "
      ++ trading_context ++ " context" }

/-- select_optimal_function (backtesting_agent.py lines 170-249) with its
try/except modelled explicitly: internal_error carries the message of an
exception raised inside the try-block, if any, and selects the degraded
fallback branch of lines 241-249. -/
def select_optimal_function (r : FunctionRegistry)
    (analysis_strategy trading_context quality_requirements : String)
    (internal_error : Option String) : FunctionSelection :=
  match internal_error with
  | some e =>
    { recommended_function := "update_order_block_performance"
      parameters := [("timeframe", PVal.str "4h"), ("min_sample_size", PVal.int 10)]
      confidence := 50
      alternative_functions := []
      reasoning := "Fallback selection due to error: " ++ e }
  | none => select_optimal_function_body r analysis_strategy trading_context quality_requirements

/-- The registry state produced by FunctionRegistry._create_demo_functions
(database.py lines 143-184). -/
def demo_registry : FunctionRegistry :=
  { functions :=
      [("update_order_block_performance",
        { description := "Analyze order block performance with respect rates"
          parameters := [("symbol", "str"), ("session", "str"), ("min_respect_rate", "int")]
          return_type := "table"
          category := "order_blocks"
          performance_tier := "fast"
          min_sample_size := 20 }),
       ("detect_fair_value_gaps",
        { description := "Identify and analyze fair value gaps"
          parameters := [("symbol", "str"), ("timeframe", "str"), ("lookback_days", "int")]
          return_type := "table"
          category := "fair_value_gaps"
          performance_tier := "medium"
          min_sample_size := 10 }),
       ("analyze_session_performance",
        { description := "Calculate session-based performance metrics"
          parameters := [("symbol", "str"), ("session", "str"), ("date_range", "str")]
          return_type := "table"
          category := "session_analysis"
          performance_tier := "fast"
          min_sample_size := 15 })]
    categories :=
      [("order_blocks", ["update_order_block_performance"]),
       ("fair_value_gaps", ["detect_fair_value_gaps"]),
       ("session_analysis", ["analyze_session_performance"])] }

/-- ValidationResults (models.py lines 58-65). -/
structure ValidationResults where
  is_valid : Bool
  confidence_level : ℚ
  sample_size : Nat
  data_coverage : ℚ
  warnings : List String
  quality_score : ℚ
  deriving DecidableEq, Repr

/-- One quality-tier threshold triple of validate_results
(backtesting_agent.py lines 319-323). -/
structure QualityThreshold where
  min_sample : Nat
  min_coverage : ℚ
  min_confidence : ℚ
  deriving DecidableEq, Repr

/-- The tier lookup thresholds.get(quality_requirements, thresholds of
balanced) of validate_results (backtesting_agent.py lines 319-325): an
unknown tier name falls back to the balanced triple. -/
def thresholds_for (quality_requirements : String) : QualityThreshold :=
  if quality_requirements = "high_confidence" then ⟨20, 80, 90⟩
  else if quality_requirements = "balanced" then ⟨10, 70, 75⟩
  else if quality_requirements = "broad_coverage" then ⟨5, 50, 60⟩
  else ⟨10, 70, 75⟩

/-- The try-block of validate_results (backtesting_agent.py lines 315-346).
The computation only ever reads the length of the raw row list, so the row
type is a parameter. -/
def validate_results {Row : Type _} (raw_results : List Row) (quality_requirements : String) :
    ValidationResults :=
  let threshold := thresholds_for quality_requirements
  let sample_size := raw_results.length
  let is_valid : Bool := decide (sample_size ≥ threshold.min_sample)
  let data_coverage : ℚ := py_min 100 ((sample_size : ℚ) / (threshold.min_sample : ℚ) * 100)
  let confidence_level : ℚ := py_min 100 (data_coverage * (threshold.min_confidence / 100))
  let quality_score : ℚ := (confidence_level + data_coverage) / 2
  let warnings :=
    (if sample_size < threshold.min_sample then
       ["Sample size " ++ toString sample_size ++ " below recommended minimum "
         ++ toString threshold.min_sample]
     else []) ++
    (if data_coverage < threshold.min_coverage then
       ["Data coverage " ++ toString data_coverage ++ " below target "
         ++ toString threshold.min_coverage]
     else [])
  { is_valid, confidence_level, sample_size, data_coverage, warnings, quality_score }

/-- The except-handler of validate_results (backtesting_agent.py lines
348-357): the all-zero invalid result carrying a single diagnostic warning
built from the caught message. -/
def validate_results_on_error (e : String) : ValidationResults :=
  { is_valid := false
    confidence_level := 0
    sample_size := 0
    data_coverage := 0
    warnings := ["Validation error: " ++ e]
    quality_score := 0 }

/-- QueryClassification (models.py lines 5-10). -/
structure QueryClassification where
  routing_decision : String
  confidence : ℚ
  reasoning : String
  suggested_approach : String
  deriving DecidableEq, Repr

/-- The fixed execution-side keyword list of classify_user_query
(coordinator_agent.py lines 137-141). -/
def backtesting_keywords : List String :=
  ["performance", "backtest", "statistics", "results", "data",
   "analysis", "success rate", "win rate", "profit", "loss",
   "order block", "fair value gap", "liquidity sweep", "session"]

/-- The fixed knowledge-side keyword list of classify_user_query
(coordinator_agent.py lines 144-147). -/
def rag_keywords : List String :=
  ["explain", "what is", "how does", "methodology", "concept",
   "definition", "theory", "principle", "strategy", "approach"]

/-- Character-list test: the first list is a leading block of the second. -/
def starts_with : List Char → List Char → Bool
  | [], _ => true
  | _ :: _, [] => false
  | a :: as, b :: bs => a = b && starts_with as bs

/-- Character-list test: the first list occurs contiguously inside the
second. -/
def occurs_in (pat : List Char) : List Char → Bool
  | [] => starts_with pat []
  | b :: bs => starts_with pat (b :: bs) || occurs_in pat bs

/-- Python substring containment (the keyword-in-text test): the term occurs
contiguously inside the text. -/
def contains_term (text term : String) : Bool :=
  occurs_in term.toList text.toList

/-- The keyword score sum of classify_user_query (coordinator_agent.py lines
149-150): each listed term contributes at most one point. -/
def keyword_count (text : String) (kws : List String) : Nat :=
  (kws.filter (fun k => contains_term text k)).length

/-- classify_user_query (coordinator_agent.py lines 119-173), the try-block:
case-fold the query, score both keyword lists, and decide the routing. -/
def classify_user_query (user_query : String) : QueryClassification :=
  let query_lower := py_lower user_query
  let backtesting_score := keyword_count query_lower backtesting_keywords
  let rag_score := keyword_count query_lower rag_keywords
  if backtesting_score > rag_score then
    { routing_decision := "backtesting_first"
      confidence := py_min 90 (60 + (backtesting_score : ℚ) * 10)
      reasoning := "Query contains " ++ toString backtesting_score ++ " backtesting indicators"
      suggested_approach := "Execute database analysis for data-driven insights" }
  else if rag_score > backtesting_score then
    { routing_decision := "rag_first"
      confidence := py_min 90 (60 + (rag_score : ℚ) * 10)
      reasoning := "Query contains " ++ toString rag_score ++ " conceptual indicators"
      suggested_approach := "Consult knowledge base for methodology explanation" }
  else
    { routing_decision := "hybrid"
      confidence := 70
      reasoning := "Query requires both conceptual and analytical components"
      suggested_approach := "Combine knowledge consultation with database analysis" }

/-- CoordinatorRequest (models.py lines 12-30); the unused date_range field is
omitted. -/
structure CoordinatorRequest where
  analysis_strategy : String
  trading_context : String
  temporal_scope : String
  asset_focus : String
  session_relevance : String
  quality_requirements : String
  symbol : Option String
  timeframe : Option String
  session : Option String
  deriving DecidableEq, Repr

/-- The fixed 15-symbol scan list of formulate_analysis_plan
(coordinator_agent.py lines 294-295). -/
def symbol_enum : List String :=
  ["eurusd", "gbpusd", "usdjpy", "audusd", "usdchf", "usdcad", "nzdusd",
   "xauusd", "xagusd", "us30", "nas100", "spx500", "uk100", "ger40", "jpn225"]

/-- The any(word in query for word in words) idiom used throughout
formulate_analysis_plan. -/
def contains_any (text : String) (words : List String) : Bool :=
  words.any (fun w => contains_term text w)

/-- formulate_analysis_plan (coordinator_agent.py lines 251-346), the
try-block: keyword-driven, first-match-wins assignment of every plan field.
The classification argument is accepted, as in the source, where it is never
read. -/
def formulate_analysis_plan (user_query : String) (classification : QueryClassification) :
    CoordinatorRequest :=
  let query_lower := py_lower user_query
  let analysis_strategy :=
    if contains_any query_lower ["performance", "success", "win rate", "profit"] then
      "performance_analysis"
    else if contains_any query_lower ["correlation", "relationship", "compare"] then
      "correlation_study"
    else "structure_detection"
  let trading_context :=
    if contains_any query_lower ["scalp", "minute", "quick", "fast"] then "scalping"
    else if contains_any query_lower ["swing", "daily", "day", "week"] then "swing_trading"
    else "position_analysis"
  let temporal_scope :=
    if contains_any query_lower ["recent", "latest", "current", "today"] then
      "recent_performance"
    else if contains_any query_lower ["historical", "past", "history", "long term"] then
      "historical_pattern"
    else "recent_performance"
  let found_symbol := (symbol_enum.find? (fun s => contains_term query_lower s)).map py_upper
  let asset_focus :=
    if found_symbol.isSome then "specific_symbol"
    else if contains_any query_lower ["major", "eur", "gbp", "usd", "jpy"] then "major_pairs"
    else "major_pairs"
  let session_relevance :=
    if contains_any query_lower ["london", "new york", "asian", "session"] then
      "specific_session"
    else if contains_any query_lower ["liquid", "volume", "active"] then "high_liquidity"
    else "all_sessions"
  let quality_requirements :=
    if contains_any query_lower ["accurate", "precise", "confident", "reliable"] then
      "high_confidence"
    else if contains_any query_lower ["broad", "comprehensive", "all", "everything"] then
      "broad_coverage"
    else "balanced"
  { analysis_strategy, trading_context, temporal_scope, asset_focus, session_relevance,
    quality_requirements, symbol := found_symbol, timeframe := none, session := none }

/-- Outcome of execute_sql_function (backtesting_agent.py lines 252-297):
either the raw rows with timing, or the wrapped error string consumed by the
caller through the error key of the returned dict. -/
inductive ExecutionResult (Row : Type _) where
  | ok (data : List Row) (execution_time_ms : Nat) (function_used : String)
  | fail (error : String)
  deriving DecidableEq, Repr

/-- execute_sql_function (backtesting_agent.py lines 252-297). The external
collaborator call db_manager.execute_function is abstracted as db_result:
Except.ok carries the fetched rows and elapsed milliseconds, Except.error the
message of the exception it raised. -/
def execute_sql_function {Row : Type _} (r : FunctionRegistry) (function_name : String)
    (db_result : Except String (List Row × Nat)) : ExecutionResult Row :=
  if assoc_mem r.functions function_name then
    match db_result with
    | Except.ok (data, t) => ExecutionResult.ok data t function_name
    | Except.error e => ExecutionResult.fail ("Database error: " ++ e)
  else
    ExecutionResult.fail ("Function " ++ function_name ++ " not found")

/-- BacktestingMetadata (models.py lines 32-39). -/
structure BacktestingMetadata where
  sample_size : Nat
  data_coverage : ℚ
  confidence_level : ℚ
  execution_time_ms : Nat
  sql_function_used : String
  data_quality_score : ℚ
  deriving DecidableEq, Repr

/-- The analysis_results dict of BacktestingResponse: empty on the failed
path, and the function_output plus summary_stats nest on the success path
(backtesting_agent.py lines 448-455). -/
inductive AnalysisResults (Row : Type _) where
  | empty
  | results (function_output : List Row) (total_records : Nat) (analysis_type : String)
      (parameters_used : List (String × PVal))
  deriving DecidableEq, Repr

/-- BacktestingResponse (models.py lines 41-48). -/
structure BacktestingResponse (Row : Type _) where
  execution_status : String
  analysis_results : AnalysisResults Row
  metadata : BacktestingMetadata
  recommendations : List String := []
  warnings : List String := []
  error_details : Option String := none
  deriving DecidableEq, Repr

/-- The parameter-preparation block of process_coordinator_request
(backtesting_agent.py lines 388-395): the selection parameters, overlaid with
the lower-cased symbol, the timeframe and the session of the request whenever
those optional fields are set. -/
def prepare_parameters (function_selection : FunctionSelection) (request : CoordinatorRequest) :
    List (String × PVal) :=
  let p := function_selection.parameters
  let p := match request.symbol with
    | some s => assoc_set p "symbol" (PVal.str (py_lower s))
    | none => p
  let p := match request.timeframe with
    | some tf => assoc_set p "timeframe" (PVal.str tf)
    | none => p
  match request.session with
  | some s => assoc_set p "session" (PVal.str s)
  | none => p

/-- The function selection made inside process_coordinator_request
(backtesting_agent.py lines 381-386). -/
def request_selection (r : FunctionRegistry) (request : CoordinatorRequest)
    (selection_error : Option String) : FunctionSelection :=
  select_optimal_function r request.analysis_strategy request.trading_context
    request.quality_requirements selection_error

/-- The parameter map that process_coordinator_request passes to the
execution gateway for a given request. -/
def request_parameters (r : FunctionRegistry) (request : CoordinatorRequest)
    (selection_error : Option String) : List (String × PVal) :=
  prepare_parameters (request_selection r request selection_error) request

/-- The execution-status derivation of process_coordinator_request
(backtesting_agent.py lines 438-444), evaluated on the gateway-success path
after validation. -/
def synthesized_status (validation : ValidationResults) : String :=
  if validation.is_valid ∧ validation.confidence_level > 75 then "success"
  else if validation.sample_size > 0 then "partial"
  else "failed"

/-- The recommendation generation of process_coordinator_request
(backtesting_agent.py lines 427-436). -/
def recommendations_for (validation : ValidationResults) : List String :=
  (if validation.confidence_level > 90 then
     ["High confidence results - suitable for strategy validation"]
   else if validation.confidence_level > 75 then
     ["Good confidence results - consider additional validation"]
   else
     ["Low confidence - recommend broader analysis or different approach"]) ++
  (if validation.sample_size < 20 then
     ["Consider extending time range or using broader criteria for more data"]
   else [])

/-- process_coordinator_request (backtesting_agent.py lines 360-482) after the
request has been parsed: select a function, prepare parameters, run the
gateway, validate, and synthesize the structured response. selection_error
and db_result model the exception behaviour of the two collaborator calls as
in select_optimal_function and execute_sql_function above. -/
def process_coordinator_request {Row : Type _} (r : FunctionRegistry)
    (request : CoordinatorRequest) (selection_error : Option String)
    (db_result : Except String (List Row × Nat)) : BacktestingResponse Row :=
  let function_selection := request_selection r request selection_error
  let parameters := request_parameters r request selection_error
  match execute_sql_function r function_selection.recommended_function db_result with
  | ExecutionResult.fail e =>
    { execution_status := "failed"
      analysis_results := AnalysisResults.empty
      metadata := ⟨0, 0, 0, 0, function_selection.recommended_function, 0⟩
      error_details := some e }
  | ExecutionResult.ok data t _fn =>
    let validation := validate_results data request.quality_requirements
    { execution_status := synthesized_status validation
      analysis_results := AnalysisResults.results data validation.sample_size
        request.analysis_strategy parameters
      metadata := ⟨validation.sample_size, validation.data_coverage,
        validation.confidence_level, t, function_selection.recommended_function,
        validation.quality_score⟩
      recommendations := recommendations_for validation
      warnings := validation.warnings }

/-- Every name a registry state carries: the keys of the functions dict
followed by the entries of the category index. -/
def registry_names (r : FunctionRegistry) : List String :=
  r.functions.map Prod.fst ++ (r.categories.map Prod.snd).flatten

/-- A registry state holding one function whose registered name is the empty
string (the state load_functions builds from a signatures file whose single
entry has an empty name field and category x). -/
def empty_name_registry : FunctionRegistry :=
  { functions :=
      [("", { description := "d", parameters := [], return_type := "table",
              category := "x", performance_tier := "fast", min_sample_size := 1 })]
    categories := [("x", [""])] }

/-- A registry state whose first-inserted function belongs to
session_analysis and whose second belongs to order_blocks (the state
load_functions builds from a signatures file listing them in that order). -/
def swapped_registry : FunctionRegistry :=
  { functions :=
      [("f1", { description := "a", parameters := [], return_type := "table",
                category := "session_analysis", performance_tier := "fast",
                min_sample_size := 1 }),
       ("f2", { description := "b", parameters := [], return_type := "table",
                category := "order_blocks", performance_tier := "fast",
                min_sample_size := 1 })]
    categories := [("session_analysis", ["f1"]), ("order_blocks", ["f2"])] }

/-- A parsed coordinator request asking for the balanced tier with no
optional overrides. -/
def balanced_request : CoordinatorRequest :=
  { analysis_strategy := "performance_analysis"
    trading_context := "swing_trading"
    temporal_scope := "recent_performance"
    asset_focus := "major_pairs"
    session_relevance := "all_sessions"
    quality_requirements := "balanced"
    symbol := none
    timeframe := none
    session := none }

/-- A parsed coordinator request that sets both the daily timeframe and a
session: a well-formed CoordinatorRequest value, since the model declares
both fields as independent optional strings. -/
def daily_session_request : CoordinatorRequest :=
  { analysis_strategy := "performance_analysis"
    trading_context := "scalping"
    temporal_scope := "recent_performance"
    asset_focus := "major_pairs"
    session_relevance := "specific_session"
    quality_requirements := "balanced"
    symbol := none
    timeframe := some "1d"
    session := some "london" }

/-! Helper lemmas shared by the claim theorems. -/

theorem py_min_eq_min (a b : ℚ) : py_min a b = min a b := by
  unfold py_min
  split
  · exact (min_eq_left (by assumption)).symm
  · exact (min_eq_right (le_of_not_le (by assumption))).symm

theorem py_min_le_left (a b : ℚ) : py_min a b ≤ a := by
  unfold py_min
  split
  · exact le_refl a
  · linarith [lt_of_not_le (by assumption : ¬ a ≤ b)]

theorem py_min_mono (a b c : ℚ) (h : b ≤ c) : py_min a b ≤ py_min a c := by
  unfold py_min
  split_ifs with h₁ h₂ h₃ <;> push_neg at * <;> linarith

theorem thresholds_min_sample_pos (q : String) : 0 < (thresholds_for q).min_sample := by
  unfold thresholds_for
  split_ifs <;> norm_num

theorem validate_is_valid_iff {Row : Type _} (rows : List Row) (q : String) :
    (validate_results rows q).is_valid = true ↔
      (thresholds_for q).min_sample ≤ rows.length := by
  simp [validate_results]

theorem validate_coverage_eq {Row : Type _} (rows : List Row) (q : String) :
    (validate_results rows q).data_coverage =
      py_min 100 ((rows.length : ℚ) / ((thresholds_for q).min_sample : ℚ) * 100) := rfl

theorem validate_coverage_mono {Row Row₂ : Type _} (q : String)
    (rows : List Row) (rows₂ : List Row₂) (h : rows.length ≤ rows₂.length) :
    (validate_results rows q).data_coverage ≤ (validate_results rows₂ q).data_coverage := by
  rw [validate_coverage_eq, validate_coverage_eq]
  apply py_min_mono
  have hm : (0 : ℚ) < ((thresholds_for q).min_sample : ℚ) := by
    exact_mod_cast thresholds_min_sample_pos q
  have hc : (rows.length : ℚ) ≤ (rows₂.length : ℚ) := by exact_mod_cast h
  have := (div_le_div_iff_of_pos_right hm).mpr hc
  nlinarith

theorem synthesized_status_success_iff (v : ValidationResults) :
    synthesized_status v = "success" ↔ (v.is_valid = true ∧ v.confidence_level > 75) := by
  unfold synthesized_status
  split_ifs with h₁ h₂ <;> simp_all

theorem synthesized_status_partial_iff (v : ValidationResults) :
    synthesized_status v = "partial" ↔
      (¬ (v.is_valid = true ∧ v.confidence_level > 75) ∧ 0 < v.sample_size) := by
  unfold synthesized_status
  split_ifs with h₁ h₂ <;> simp_all

theorem synthesized_status_failed_iff (v : ValidationResults) :
    synthesized_status v = "failed" ↔
      (¬ (v.is_valid = true ∧ v.confidence_level > 75) ∧ v.sample_size = 0) := by
  unfold synthesized_status
  split_ifs with h₁ h₂ <;> simp_all
  omega

theorem process_fail_eq {Row : Type _} (r : FunctionRegistry) (req : CoordinatorRequest)
    (exc : Option String) (db : Except String (List Row × Nat)) (e : String)
    (h : execute_sql_function r (request_selection r req exc).recommended_function db =
      ExecutionResult.fail e) :
    process_coordinator_request r req exc db =
      { execution_status := "failed"
        analysis_results := AnalysisResults.empty
        metadata := ⟨0, 0, 0, 0, (request_selection r req exc).recommended_function, 0⟩
        recommendations := []
        warnings := []
        error_details := some e } := by
  simp only [process_coordinator_request]
  rw [h]

theorem process_ok_eq {Row : Type _} (r : FunctionRegistry) (req : CoordinatorRequest)
    (exc : Option String) (db : Except String (List Row × Nat)) (data : List Row)
    (t : Nat) (fn : String)
    (h : execute_sql_function r (request_selection r req exc).recommended_function db =
      ExecutionResult.ok data t fn) :
    process_coordinator_request r req exc db =
      { execution_status := synthesized_status (validate_results data req.quality_requirements)
        analysis_results := AnalysisResults.results data
          (validate_results data req.quality_requirements).sample_size
          req.analysis_strategy (request_parameters r req exc)
        metadata := ⟨(validate_results data req.quality_requirements).sample_size,
          (validate_results data req.quality_requirements).data_coverage,
          (validate_results data req.quality_requirements).confidence_level, t,
          (request_selection r req exc).recommended_function,
          (validate_results data req.quality_requirements).quality_score⟩
        recommendations := recommendations_for (validate_results data req.quality_requirements)
        warnings := (validate_results data req.quality_requirements).warnings } := by
  simp only [process_coordinator_request]
  rw [h]

theorem exec_ok_eq {Row : Type _} (r : FunctionRegistry) (name : String) (data : List Row)
    (t : Nat) (h : assoc_mem r.functions name = true) :
    execute_sql_function r name (Except.ok (data, t)) = ExecutionResult.ok data t name := by
  simp [execute_sql_function, h]

theorem string_append_ne_empty (a b : String) (h : a.data ≠ []) : a ++ b ≠ "" := by
  intro hc
  apply h
  have hd := congrArg String.data hc
  rw [String.data_append] at hd
  exact (List.append_eq_nil.mp hd).1

theorem exec_fail_ne_empty {Row : Type _} (r : FunctionRegistry) (name : String)
    (db : Except String (List Row × Nat)) (e : String)
    (h : execute_sql_function r name db = ExecutionResult.fail e) : e ≠ "" := by
  unfold execute_sql_function at h
  split at h
  · match db, h with
    | Except.error e₂, h =>
      cases h
      exact string_append_ne_empty "Database error: " e₂ (by decide)
  · cases h
    rw [String.append_assoc]
    exact string_append_ne_empty "Function " (name ++ " not found") (by decide)

theorem synthesized_status_mem (v : ValidationResults) :
    synthesized_status v = "success" ∨ synthesized_status v = "partial" ∨
      synthesized_status v = "failed" := by
  unfold synthesized_status
  split_ifs <;> simp

theorem preferred_ne_empty (s f : String) (h : f ∈ preferred_functions s) : f ≠ "" := by
  unfold preferred_functions at h
  split_ifs at h <;> simp at h <;> rcases h with rfl | rfl <;> decide

theorem mem_assoc_get_flatten {α : Type _} (l : List (String × List α)) (k : String) (x : α)
    (h : x ∈ assoc_get l k []) : x ∈ (l.map Prod.snd).flatten := by
  induction l with
  | nil => simp [assoc_get] at h
  | cons p rest ih =>
    obtain ⟨k₂, v⟩ := p
    simp only [assoc_get] at h
    simp only [List.map_cons, List.flatten_cons, List.mem_append]
    by_cases hk : k₂ = k
    · rw [if_pos hk] at h
      exact Or.inl h
    · rw [if_neg hk] at h
      exact Or.inr (ih h)

theorem mem_collected_names {r : FunctionRegistry} {s x : String}
    (h : x ∈ collected_names r s) : x ∈ (r.categories.map Prod.snd).flatten := by
  unfold collected_names at h
  obtain ⟨cat, _, hx⟩ := List.mem_flatMap.mp h
  unfold get_functions_by_category at hx
  exact mem_assoc_get_flatten r.categories cat x hx

theorem mem_suggest_names {r : FunctionRegistry} {s c x : String}
    (h : x ∈ suggest_functions r s c) : x ∈ registry_names r := by
  simp only [suggest_functions] at h
  have h₂ := List.mem_of_mem_take h
  unfold registry_names
  by_cases hc : collected_names r s = []
  · rw [if_pos hc] at h₂
    exact List.mem_append_left _ h₂
  · rw [if_neg hc] at h₂
    exact List.mem_append_right _ (mem_collected_names h₂)

theorem mem_suggested_with_fallback {r : FunctionRegistry} {s c x : String}
    (h : x ∈ suggested_with_fallback r s c) : x ∈ registry_names r := by
  unfold suggested_with_fallback at h
  by_cases hc : suggest_functions r s c = []
  · rw [if_pos hc] at h
    exact List.mem_append_left _ h
  · rw [if_neg hc] at h
    exact mem_suggest_names h

theorem recommended_for_ne_empty (r : FunctionRegistry) (s c : String)
    (h : ∀ n ∈ registry_names r, n ≠ "") : recommended_for r s c ≠ "" := by
  unfold recommended_for
  split
  next f hf => exact preferred_ne_empty s f (List.mem_of_find?_eq_some hf)
  next =>
    split
    next f tail hs =>
      have hmem : f ∈ suggested_with_fallback r s c := by
        rw [hs]
        exact List.mem_cons_self f tail
      exact h f (mem_suggested_with_fallback hmem)
    next => decide

theorem keys_eq_nil_of_suggest_eq_nil {r : FunctionRegistry} {s c : String}
    (h : suggest_functions r s c = []) : r.functions.map Prod.fst = [] := by
  simp only [suggest_functions] at h
  by_cases hc : collected_names r s = []
  · rw [if_pos hc] at h
    rcases List.take_eq_nil_iff.mp h with h10 | hk
    · exact absurd h10 (by norm_num)
    · exact hk
  · rw [if_neg hc] at h
    rcases List.take_eq_nil_iff.mp h with h10 | hk
    · exact absurd h10 (by norm_num)
    · exact absurd hk hc

theorem recommended_for_default_of_suggest_eq_nil (r : FunctionRegistry) (s c : String)
    (h : suggest_functions r s c = []) :
    recommended_for r s c = "update_order_block_performance" := by
  have hkeys := keys_eq_nil_of_suggest_eq_nil h
  unfold recommended_for suggested_with_fallback
  rw [if_pos h, hkeys]
  unfold preferred_functions
  split_ifs <;> rfl

/-! The claim theorems. -/

/-- Claim C1: for every request and every gateway outcome the
request-processing operation returns a structured response whose status is
one of success, partial, failed, and whenever the execution gateway reports
failure the response has status failed, empty results, metadata zeroed except
the function name carried from the selection, and a non-empty error_details
string. This holds of the embedded processing logic; in the Python source the
operation cannot return at all, because the name BacktestingMetadata used on
every return path of process_coordinator_request is never imported. -/
theorem claim_C1 {Row : Type _} (r : FunctionRegistry) (req : CoordinatorRequest)
    (exc : Option String) (db : Except String (List Row × Nat)) :
    ((process_coordinator_request r req exc db).execution_status = "success" ∨
     (process_coordinator_request r req exc db).execution_status = "partial" ∨
     (process_coordinator_request r req exc db).execution_status = "failed") ∧
    (∀ e, execute_sql_function r (request_selection r req exc).recommended_function db =
        ExecutionResult.fail e →
      process_coordinator_request r req exc db =
        { execution_status := "failed"
          analysis_results := AnalysisResults.empty
          metadata := ⟨0, 0, 0, 0, (request_selection r req exc).recommended_function, 0⟩
          recommendations := []
          warnings := []
          error_details := some e } ∧ e ≠ "") := by
  constructor
  · cases hex : execute_sql_function r (request_selection r req exc).recommended_function db with
    | fail e =>
      rw [process_fail_eq r req exc db e hex]
      right; right; rfl
    | ok data t fn =>
      rw [process_ok_eq r req exc db data t fn hex]
      exact synthesized_status_mem _
  · intro e he
    exact ⟨process_fail_eq r req exc db e he, exec_fail_ne_empty r _ db e he⟩

/-- Witness for claim C1 at a concrete request and a concrete gateway
failure. -/
theorem claim_C1_witness :
    process_coordinator_request demo_registry balanced_request none
        (Except.error "connection refused" : Except String (List Unit × Nat)) =
      { execution_status := "failed"
        analysis_results := AnalysisResults.empty
        metadata := ⟨0, 0, 0, 0, "update_order_block_performance", 0⟩
        recommendations := []
        warnings := []
        error_details := some "Database error: connection refused" } ∧
    ("Database error: connection refused" : String) ≠ "" := by
  have h := (@claim_C1 Unit demo_registry balanced_request none
    (Except.error "connection refused")).2 "Database error: connection refused" (by decide)
  refine ⟨?_, h.2⟩
  have hsel : (request_selection demo_registry balanced_request none).recommended_function =
      "update_order_block_performance" := by decide
  rw [h.1, hsel]

/-- Claim C2: the claim asserts the parameter map never carries a session key
when the resolved timeframe is 1d or 1w. The code copies the request session
into the map unconditionally, so a request with timeframe 1d and session
london produces a map holding both; this theorem evaluates the embedded
parameter preparation at that failing input. -/
theorem claim_C2 :
    assoc_mem (request_parameters demo_registry daily_session_request none) "session" = true ∧
    assoc_get (request_parameters demo_registry daily_session_request none) "session"
      (PVal.str "") = PVal.str "london" ∧
    assoc_get (request_parameters demo_registry daily_session_request none) "timeframe"
      (PVal.str "") = PVal.str "1d" := by
  refine ⟨?_, ?_, ?_⟩ <;> decide

/-- Claim C3: on the gateway-success path the synthesized execution status is
success iff the validation is valid with confidence strictly above 75, else
partial iff the validation sample size is positive, else failed; and 25 rows
under the balanced tier give confidence exactly 75, hence status partial. -/
theorem claim_C3 {Row : Type _} (r : FunctionRegistry) (req : CoordinatorRequest)
    (exc : Option String) (data : List Row) (t : Nat)
    (h : assoc_mem r.functions (request_selection r req exc).recommended_function = true) :
    ((process_coordinator_request r req exc (Except.ok (data, t))).execution_status = "success" ↔
      ((validate_results data req.quality_requirements).is_valid = true ∧
        (validate_results data req.quality_requirements).confidence_level > 75)) ∧
    ((process_coordinator_request r req exc (Except.ok (data, t))).execution_status = "partial" ↔
      (¬ ((validate_results data req.quality_requirements).is_valid = true ∧
          (validate_results data req.quality_requirements).confidence_level > 75) ∧
        0 < (validate_results data req.quality_requirements).sample_size)) ∧
    ((process_coordinator_request r req exc (Except.ok (data, t))).execution_status = "failed" ↔
      (¬ ((validate_results data req.quality_requirements).is_valid = true ∧
          (validate_results data req.quality_requirements).confidence_level > 75) ∧
        (validate_results data req.quality_requirements).sample_size = 0)) ∧
    (validate_results (List.replicate 25 ()) "balanced").confidence_level = 75 ∧
    (process_coordinator_request demo_registry balanced_request none
      (Except.ok (List.replicate 25 (), 7))).execution_status = "partial" := by
  have hp := process_ok_eq r req exc (Except.ok (data, t)) data t
    ((request_selection r req exc).recommended_function) (exec_ok_eq r _ data t h)
  rw [hp]
  have hc75 : (validate_results (List.replicate 25 ()) "balanced").confidence_level = 75 := by
    have hb : thresholds_for "balanced" = ⟨10, 70, 75⟩ := rfl
    simp only [validate_results, hb, py_min, List.length_replicate]
    norm_num
  refine ⟨synthesized_status_success_iff _, synthesized_status_partial_iff _,
    synthesized_status_failed_iff _, hc75, ?_⟩
  have hmem : assoc_mem demo_registry.functions
      (request_selection demo_registry balanced_request none).recommended_function = true := by
    decide
  have hp₂ := process_ok_eq demo_registry balanced_request none
    (Except.ok (List.replicate 25 (), 7)) (List.replicate 25 ()) 7
    ((request_selection demo_registry balanced_request none).recommended_function)
    (exec_ok_eq demo_registry _ (List.replicate 25 ()) 7 hmem)
  rw [hp₂]
  have hq : balanced_request.quality_requirements = "balanced" := rfl
  rw [hq]
  refine (synthesized_status_partial_iff _).mpr ⟨?_, by decide⟩
  intro hcontra
  have hgt := hcontra.2
  rw [hc75] at hgt
  exact absurd hgt (by norm_num)

/-- Witness for claim C3 at the demo registry and a 25-row balanced-tier
success. -/
theorem claim_C3_witness :
    (process_coordinator_request demo_registry balanced_request none
      (Except.ok (List.replicate 25 (), 7))).execution_status = "partial" :=
  (claim_C3 demo_registry balanced_request none (List.replicate 25 ()) 7 (by decide)).2.2.2.2

/-- Claim C4: for every tier name and row lists, the validator is valid iff
the row count reaches the tier minimum sample, the coverage equals
min(100, n divided by the minimum sample times 100), is monotone in the row
count and capped at 100, the confidence equals
min(100, coverage times the tier confidence percentage over 100), the quality
score is their mean, and 20 rows under high_confidence give the record
(true, 90, 20, 100, no warnings, 95). -/
theorem claim_C4 {Row Row₂ : Type _} (q : String) (rows : List Row) (rows₂ : List Row₂)
    (h : rows.length ≤ rows₂.length) :
    ((validate_results rows q).is_valid = true ↔
      (thresholds_for q).min_sample ≤ rows.length) ∧
    (validate_results rows q).data_coverage =
      min 100 ((rows.length : ℚ) / ((thresholds_for q).min_sample : ℚ) * 100) ∧
    (validate_results rows q).data_coverage ≤ (validate_results rows₂ q).data_coverage ∧
    (validate_results rows q).data_coverage ≤ 100 ∧
    (validate_results rows q).confidence_level =
      min 100 ((validate_results rows q).data_coverage *
        ((thresholds_for q).min_confidence / 100)) ∧
    (validate_results rows q).quality_score =
      ((validate_results rows q).confidence_level +
        (validate_results rows q).data_coverage) / 2 ∧
    validate_results (List.replicate 20 ()) "high_confidence" =
      { is_valid := true, confidence_level := 90, sample_size := 20, data_coverage := 100,
        warnings := [], quality_score := 95 } := by
  refine ⟨validate_is_valid_iff rows q, ?_, validate_coverage_mono q rows rows₂ h, ?_, ?_,
    rfl, ?_⟩
  · rw [validate_coverage_eq, py_min_eq_min]
  · rw [validate_coverage_eq]
    exact py_min_le_left _ _
  · have hconf : (validate_results rows q).confidence_level =
        py_min 100 ((validate_results rows q).data_coverage *
          ((thresholds_for q).min_confidence / 100)) := rfl
    rw [hconf, py_min_eq_min]
  · have hh : thresholds_for "high_confidence" = ⟨20, 80, 90⟩ := rfl
    simp only [validate_results, hh, py_min, List.length_replicate]
    norm_num

/-- Witness for claim C4 at the high_confidence tier with 20 and 25 rows. -/
theorem claim_C4_witness :
    validate_results (List.replicate 20 ()) "high_confidence" =
      { is_valid := true, confidence_level := 90, sample_size := 20, data_coverage := 100,
        warnings := [], quality_score := 95 } ∧
    (validate_results (List.replicate 20 ()) "high_confidence").data_coverage ≤
      (validate_results (List.replicate 25 ()) "high_confidence").data_coverage := by
  have h := claim_C4 "high_confidence" (List.replicate 20 ()) (List.replicate 25 ())
    (by decide)
  exact ⟨h.2.2.2.2.2.2, h.2.2.1⟩

/-- Claim C5: the classifier counts case-insensitive keyword substring hits on
each side, routes to the execution side (backtesting_first in the source) on a
strictly higher execution count with confidence min(90, 60 + 10 times the
count), to the knowledge side (rag_first) symmetrically, and to hybrid with
confidence 70 on a tie; the concrete text routes execution-first with
confidence 90. -/
theorem claim_C5 (text : String) :
    (keyword_count (py_lower text) backtesting_keywords >
        keyword_count (py_lower text) rag_keywords →
      (classify_user_query text).routing_decision = "backtesting_first" ∧
      (classify_user_query text).confidence =
        min 90 (60 + 10 * (keyword_count (py_lower text) backtesting_keywords : ℚ))) ∧
    (keyword_count (py_lower text) rag_keywords >
        keyword_count (py_lower text) backtesting_keywords →
      (classify_user_query text).routing_decision = "rag_first" ∧
      (classify_user_query text).confidence =
        min 90 (60 + 10 * (keyword_count (py_lower text) rag_keywords : ℚ))) ∧
    (keyword_count (py_lower text) backtesting_keywords =
        keyword_count (py_lower text) rag_keywords →
      (classify_user_query text).routing_decision = "hybrid" ∧
      (classify_user_query text).confidence = 70) ∧
    (classify_user_query "Show me performance statistics and results").routing_decision =
      "backtesting_first" ∧
    (classify_user_query "Show me performance statistics and results").confidence = 90 := by
  refine ⟨?_, ?_, ?_, by decide, ?_⟩
  · intro hgt
    simp only [classify_user_query]
    rw [if_pos hgt]
    refine ⟨rfl, ?_⟩
    rw [py_min_eq_min]
    ring_nf
  · intro hgt
    have hnot : ¬ (keyword_count (py_lower text) backtesting_keywords >
        keyword_count (py_lower text) rag_keywords) := by omega
    simp only [classify_user_query]
    rw [if_neg hnot, if_pos hgt]
    refine ⟨rfl, ?_⟩
    rw [py_min_eq_min]
    ring_nf
  · intro heq
    have h₁ : ¬ (keyword_count (py_lower text) backtesting_keywords >
        keyword_count (py_lower text) rag_keywords) := by omega
    have h₂ : ¬ (keyword_count (py_lower text) rag_keywords >
        keyword_count (py_lower text) backtesting_keywords) := by omega
    simp only [classify_user_query]
    rw [if_neg h₁, if_neg h₂]
    exact ⟨rfl, rfl⟩
  · have hb : keyword_count (py_lower "Show me performance statistics and results")
        backtesting_keywords = 3 := by decide
    have hg : keyword_count (py_lower "Show me performance statistics and results")
        rag_keywords = 0 := by decide
    simp only [classify_user_query, hb, hg]
    norm_num [py_min]

/-- Witness for claim C5 at the concrete query of the claim. -/
theorem claim_C5_witness :
    (classify_user_query "Show me performance statistics and results").routing_decision =
      "backtesting_first" ∧
    (classify_user_query "Show me performance statistics and results").confidence =
      min 90 (60 + 10 * (keyword_count
        (py_lower "Show me performance statistics and results") backtesting_keywords : ℚ)) :=
  (claim_C5 "Show me performance statistics and results").1 (by decide)

/-- Counterexample to claim C6 as stated: a reachable registry state holding
one function registered under the empty-string name makes the selector return
an empty function name, against the claim that the returned name is non-empty
for every registry state. -/
theorem claim_C6_counterexample :
    (select_optimal_function empty_name_registry "performance_analysis" "swing_trading"
      "balanced" none).recommended_function = "" := by
  decide

/-- Claim C6 as amended: for every registry state all of whose registered
names (function keys and category entries) are non-empty, the selector
returns a non-empty function name; when the suggestion list is empty and no
preferred function matches it returns the hard-coded default function; and on
any internal exception it returns the degraded selection with the fixed
fallback function, timeframe 4h, min_sample_size 10, confidence 50, empty
alternatives and a rationale citing the error, rather than raising. -/
theorem claim_C6 (r : FunctionRegistry) (s c q : String)
    (h : ∀ n ∈ registry_names r, n ≠ "") :
    (select_optimal_function r s c q none).recommended_function ≠ "" ∧
    (suggest_functions r s c = [] →
      (select_optimal_function r s c q none).recommended_function =
        "update_order_block_performance") ∧
    (∀ e, select_optimal_function r s c q (some e) =
      { recommended_function := "update_order_block_performance"
        parameters := [("timeframe", PVal.str "4h"), ("min_sample_size", PVal.int 10)]
        confidence := 50
        alternative_functions := []
        reasoning := "Fallback selection due to error: " ++ e }) := by
  refine ⟨?_, ?_, fun e => rfl⟩
  · exact recommended_for_ne_empty r s c h
  · intro hsug
    exact recommended_for_default_of_suggest_eq_nil r s c hsug

/-- Witness for claim C6 at the demo registry, whose names are non-empty. -/
theorem claim_C6_witness :
    (select_optimal_function demo_registry "structure_detection" "position_analysis"
      "balanced" none).recommended_function ≠ "" ∧
    select_optimal_function demo_registry "structure_detection" "position_analysis"
        "balanced" (some "boom") =
      { recommended_function := "update_order_block_performance"
        parameters := [("timeframe", PVal.str "4h"), ("min_sample_size", PVal.int 10)]
        confidence := 50
        alternative_functions := []
        reasoning := "Fallback selection due to error: " ++ "boom" } := by
  have h := claim_C6 demo_registry "structure_detection" "position_analysis" "balanced"
    (by decide)
  exact ⟨h.1, h.2.2 "boom"⟩

/-- Counterexample to claim C7 as stated: with the session_analysis function
inserted before the order_blocks function, the suggestion for
performance_analysis lists them category-by-category, which is not an
order-preserving subsequence of the registry insertion order. -/
theorem claim_C7_counterexample :
    suggest_functions swapped_registry "performance_analysis" "swing_trading" =
      ["f2", "f1"] ∧
    swapped_registry.functions.map Prod.fst = ["f1", "f2"] ∧
    ¬ (suggest_functions swapped_registry "performance_analysis"
        "swing_trading").Sublist (swapped_registry.functions.map Prod.fst) := by
  refine ⟨?_, ?_, ?_⟩ <;> decide

/-- Claim C7 as amended: the suggestion collects the function names of the
categories given by the fixed strategy lookup table in the table's category
order (preserving insertion order within each category, not global registry
insertion order); if that collection is empty it returns all registered names
in registry insertion order; and the returned list has at most 10 names. -/
theorem claim_C7 (r : FunctionRegistry) (s c : String) :
    (suggest_functions r s c).length ≤ 10 ∧
    (collected_names r s ≠ [] →
      suggest_functions r s c = (collected_names r s).take 10) ∧
    (collected_names r s = [] →
      suggest_functions r s c = (r.functions.map Prod.fst).take 10 ∧
      (suggest_functions r s c).Sublist (r.functions.map Prod.fst)) := by
  refine ⟨?_, ?_, ?_⟩
  · simp only [suggest_functions]
    exact List.length_take_le _ _
  · intro hc
    simp only [suggest_functions]
    rw [if_neg hc]
  · intro hc
    have he : suggest_functions r s c = (r.functions.map Prod.fst).take 10 := by
      simp only [suggest_functions]
      rw [if_pos hc]
    exact ⟨he, he ▸ List.take_sublist _ _⟩

/-- Witness for claim C7 at the demo registry, on both the category branch
and the all-names fallback branch. -/
theorem claim_C7_witness :
    suggest_functions demo_registry "performance_analysis" "swing_trading" =
      ["update_order_block_performance", "analyze_session_performance"] ∧
    suggest_functions demo_registry "correlation_study" "swing_trading" =
      ["update_order_block_performance", "detect_fair_value_gaps",
        "analyze_session_performance"] ∧
    (suggest_functions demo_registry "performance_analysis" "swing_trading").length ≤ 10 := by
  refine ⟨?_, ?_, (claim_C7 demo_registry "performance_analysis" "swing_trading").1⟩
  · rw [(claim_C7 demo_registry "performance_analysis" "swing_trading").2.1 (by decide)]
    decide
  · rw [((claim_C7 demo_registry "correlation_study" "swing_trading").2.2 (by decide)).1]
    decide

/-- Claim C8: the plan formulator is deterministic and independent of the
classification argument: the same text with any two classification values
yields the same plan, and repeated calls agree. -/
theorem claim_C8 (user_query : String) (c₁ c₂ : QueryClassification) :
    formulate_analysis_plan user_query c₁ = formulate_analysis_plan user_query c₂ ∧
    formulate_analysis_plan user_query c₁ = formulate_analysis_plan user_query c₁ :=
  ⟨rfl, rfl⟩

/-- Claim C9: the validator treats a tier name outside the three known tiers
exactly as balanced, and its except-handler value is the all-zero invalid
result carrying exactly one diagnostic warning. The no-raise part of the
claim fails in the Python source: the module imports ValidationResult, which
models.py does not define, so the module never loads and the constructor name
ValidationResults is unbound inside validate_results. -/
theorem claim_C9 {Row : Type _} (rows : List Row) (q e : String)
    (h₁ : q ≠ "high_confidence") (h₂ : q ≠ "balanced") (h₃ : q ≠ "broad_coverage") :
    validate_results rows q = validate_results rows "balanced" ∧
    thresholds_for q = ⟨10, 70, 75⟩ ∧
    validate_results_on_error e =
      { is_valid := false, confidence_level := 0, sample_size := 0, data_coverage := 0,
        warnings := ["Validation error: " ++ e], quality_score := 0 } ∧
    (validate_results_on_error e).warnings.length = 1 := by
  have ht : thresholds_for q = ⟨10, 70, 75⟩ := by
    unfold thresholds_for
    rw [if_neg h₁, if_neg h₂, if_neg h₃]
  have hb : thresholds_for "balanced" = ⟨10, 70, 75⟩ := rfl
  refine ⟨?_, ht, rfl, rfl⟩
  simp only [validate_results]
  rw [ht, hb]

/-- Witness for claim C9 at an unknown tier name. -/
theorem claim_C9_witness :
    validate_results [()] "frontier_quality" = validate_results [()] "balanced" ∧
    (validate_results_on_error "boom").warnings.length = 1 := by
  have h := claim_C9 [()] "frontier_quality" "boom" (by decide) (by decide) (by decide)
  exact ⟨h.1, h.2.2.2⟩

/-- Claim C10: the registry suggestion is independent of the trading_context
argument: for every strategy and registry state, any two context values give
the same suggestion list. -/
theorem claim_C10 (r : FunctionRegistry) (s c₁ c₂ : String) :
    suggest_functions r s c₁ = suggest_functions r s c₂ :=
  rfl

end ICT
